import Mathlib

/-!
Verification of the `intro-to-ml-tensorflow` notebooks.

The repository consists of two instructional notebooks:
* the intro/transfer-learning notebook (single-layer forward pass with
  `sigmoid_activation`, `tf.matmul`, and a transfer-learning pipeline with
  `format_image`), and
* the training notebook Part 3 (a `normalize` pipeline, a Keras model
  lifecycle `Sequential` / `.compile` / `.evaluate` / `.fit` / `.predict`,
  and a `tf.GradientTape` demonstration).

Images are embedded as rational-valued pixel grids (the cast from `uint8`
to `float32` is exact for values in `[0, 255]`, and the idealised dataset
arithmetic is exact rational arithmetic).  Scalar tensor arithmetic that
feeds the sigmoid is embedded over the reals, so that `tf.exp` is the
genuine exponential.
-/

namespace IntroML

/-- An image tensor of height `h`, width `w` and `c` colour channels,
with rational pixel values. -/
def Image (h w c : ℕ) : Type := Fin h → Fin w → Fin c → ℚ

/-- The cast `tf.cast(image, tf.float32)` on integer pixel data in `[0, 255]` is an
exact (value-preserving) conversion, so on the rational model it is the
identity on pixel values. -/
def tf_cast_float32 {h w c : ℕ} (image : Image h w c) : Image h w c := image

/-- The `image_size` constant of the transfer-learning notebook. -/
def image_size : ℕ := 224

/-- Sampling position used by `tf.image.resize` (bilinear, half-pixel
centers): the source coordinate that output index `outIdx` maps to. -/
def halfPixelPos (inSize outSize outIdx : ℕ) : ℚ :=
  ((outIdx : ℚ) + 1 / 2) * (inSize : ℚ) / (outSize : ℚ) - 1 / 2

/-- Lower source index for bilinear interpolation (clamped to `0`). -/
def lerpLow (inSize outSize outIdx : ℕ) : ℕ :=
  (max ⌊halfPixelPos inSize outSize outIdx⌋ 0).toNat

/-- Upper source index for bilinear interpolation (clamped to
`inSize - 1`). -/
def lerpHigh (inSize outSize outIdx : ℕ) : ℕ :=
  (min ⌈halfPixelPos inSize outSize outIdx⌉ ((inSize : ℤ) - 1)).toNat

/-- Interpolation weight: the fractional part of the sampling position. -/
def lerpT (inSize outSize outIdx : ℕ) : ℚ :=
  halfPixelPos inSize outSize outIdx - ⌊halfPixelPos inSize outSize outIdx⌋

/-- Read a pixel by (possibly out-of-range) natural indices; out-of-range
reads return `0`.  For a nonempty image the interpolation indices computed
by `lerpLow`/`lerpHigh` are always in range, so the default is never the
sampled value there. -/
def pixAt {h w c : ℕ} (image : Image h w c) (y x : ℕ) (k : Fin c) : ℚ :=
  if hy : y < h then (if hx : x < w then image ⟨y, hy⟩ ⟨x, hx⟩ k else 0) else 0

/-- Linear interpolation `a + (b - a) * t`, the kernel of bilinear
resizing. -/
def lerp (a b t : ℚ) : ℚ := a + (b - a) * t

/-- The resize `tf.image.resize(image, (H, W))` with the default bilinear method:
every output pixel is a linear interpolation of (at most) four source
pixels. -/
def tf_image_resize {h w c : ℕ} (image : Image h w c) (H W : ℕ) :
    Image H W c := fun i j k =>
  let ty := lerpT h H i.val
  let tx := lerpT w W j.val
  let top := lerp (pixAt image (lerpLow h H i.val) (lerpLow w W j.val) k)
    (pixAt image (lerpLow h H i.val) (lerpHigh w W j.val) k) tx
  let bot := lerp (pixAt image (lerpHigh h H i.val) (lerpLow w W j.val) k)
    (pixAt image (lerpHigh h H i.val) (lerpHigh w W j.val) k) tx
  lerp top bot ty

/-- The function `normalize(image, label)` from the training notebook:
cast to `float32`, divide by `255`, return the label unchanged. -/
def normalize {h w c : ℕ} (p : Image h w c × ℕ) : Image h w c × ℕ :=
  let image := tf_cast_float32 p.1
  let image : Image h w c := fun i j k => image i j k / 255
  (image, p.2)

/-- The function `format_image(image, label)` from the transfer-learning notebook:
cast to `float32`, resize to `(image_size, image_size)`, divide by `255`,
return the label unchanged. -/
def format_image {h w c : ℕ} (p : Image h w c × ℕ) :
    Image image_size image_size c × ℕ :=
  let image := tf_cast_float32 p.1
  let image := tf_image_resize image image_size image_size
  let image : Image image_size image_size c := fun i j k => image i j k / 255
  (image, p.2)

/-- A concrete constant `1 × 1` RGB image with pixel value `128`. -/
def constImg : Image 1 1 3 := fun _ _ _ => 128

/-! ### Scalar tensors over the reals -/

/-- The framework primitive `tf.exp`, the elementwise exponential. -/
noncomputable def tf_exp (x : ℝ) : ℝ := Real.exp x

/-- The function `sigmoid_activation(x) = 1 / (1 + tf.exp(-x))`, defined in the intro
notebook. -/
noncomputable def sigmoid_activation (x : ℝ) : ℝ := 1 / (1 + tf_exp (-x))

/-- The standard logistic function, written from the spec's words
(`1/(1+exp(-x))`) for comparison with the source's `sigmoid_activation`. -/
noncomputable def logistic_spec (x : ℝ) : ℝ := 1 / (1 + Real.exp (-x))

/-- A rank-2 tensor with dynamic shape, as handed to `tf.matmul`:
a row count, a column count, and real-valued entries. -/
structure TfTensor where
  rows : ℕ
  cols : ℕ
  entry : ℕ → ℕ → ℝ

/-- The matrix product computed by `tf.matmul` once the shape check has
passed; with `transpose_b = true` the second operand is read transposed
without being modified. -/
noncomputable def matmulRaw (a b : TfTensor) (transpose_b : Bool) : TfTensor :=
  { rows := a.rows
    cols := if transpose_b then b.rows else b.cols
    entry := fun i j => ∑ k ∈ Finset.range a.cols,
      a.entry i k * (if transpose_b then b.entry j k else b.entry k j) }

/-- The operation `tf.matmul(a, b, transpose_b)`: raises `InvalidArgumentError` when the
inner dimensions are incompatible, otherwise returns the product. -/
noncomputable def tf_matmul (a b : TfTensor) (transpose_b : Bool) :
    Except String TfTensor :=
  if a.cols = (if transpose_b then b.cols else b.rows) then
    Except.ok (matmulRaw a b transpose_b)
  else
    Except.error "InvalidArgumentError: Matrix size-incompatible [Op:MatMul]"

/-- Whether an `Except` result is a success. -/
def exceptOk {ε α : Type} : Except ε α → Bool
  | Except.ok _ => true
  | Except.error _ => false

/-- The operation `tf.multiply(a, b)`: elementwise product of same-shaped tensors. -/
noncomputable def tf_multiply (a b : TfTensor) : TfTensor :=
  { rows := a.rows, cols := a.cols
    entry := fun i j => a.entry i j * b.entry i j }

/-- The operation `tf.reduce_sum(x)`: the sum of all entries of the tensor. -/
noncomputable def tf_reduce_sum (a : TfTensor) : ℝ :=
  ∑ i ∈ Finset.range a.rows, ∑ j ∈ Finset.range a.cols, a.entry i j

/-- Elementwise application of a scalar function, e.g. the activation
applied to a whole tensor. -/
noncomputable def mapTensor (f : ℝ → ℝ) (a : TfTensor) : TfTensor :=
  { rows := a.rows, cols := a.cols, entry := fun i j => f (a.entry i j) }

/-- Elementwise tensor addition (the `(1,1) + (1,1)` case of `+`). -/
noncomputable def tensorAdd (a b : TfTensor) : TfTensor :=
  { rows := a.rows, cols := a.cols
    entry := fun i j => a.entry i j + b.entry i j }

/-- Adding a scalar to a `(1,1)` tensor broadcasts the scalar, as in
`tf.reduce_sum(...) + bias`. -/
noncomputable def scalarAddTensor (x : ℝ) (b : TfTensor) : TfTensor :=
  { rows := b.rows, cols := b.cols, entry := fun i j => x + b.entry i j }

/-- The tensors alive in the single-layer-network cells: `features`,
`weights`, `bias`, and the result slot `y`. -/
structure NetState where
  features : TfTensor
  weights : TfTensor
  bias : TfTensor
  y : Option TfTensor

/-- The cell `y = sigmoid_activation(tf.matmul(features, weights,
transpose_b = True) + bias)`: only `y` is (re)bound; the operands are
read, never written. -/
noncomputable def runMatmulTransposeCell (s : NetState) : NetState :=
  match tf_matmul s.features s.weights true with
  | Except.ok prod =>
    { s with y := some (mapTensor sigmoid_activation (tensorAdd prod s.bias)) }
  | Except.error _ => { s with y := none }

/-- A concrete `features` tensor of shape `(1, 5)`. -/
noncomputable def features₀ : TfTensor := ⟨1, 5, fun _ _ => 2⟩

/-- A concrete `weights` tensor of shape `(1, 5)`. -/
noncomputable def weights₀ : TfTensor := ⟨1, 5, fun _ _ => 3⟩

/-- A concrete `bias` tensor of shape `(1, 1)`. -/
noncomputable def bias₀ : TfTensor := ⟨1, 1, fun _ _ => 1⟩

/-- A concrete initial state for the single-layer-network cells. -/
noncomputable def netState₀ : NetState := ⟨features₀, weights₀, bias₀, none⟩

/-! ### Reverse-mode automatic differentiation (`tf.GradientTape`) -/

/-- Operations recorded by the tape on the watched scalar `var` (one
tensor element at a time, since all the tensor ops involved are
elementwise). -/
inductive Exp : Type
  | var : Exp
  | const : ℚ → Exp
  | add : Exp → Exp → Exp
  | mul : Exp → Exp → Exp
  | neg : Exp → Exp
  | pow : Exp → ℕ → Exp

/-- Forward evaluation of a recorded expression at the watched value. -/
def evalExp : Exp → ℚ → ℚ
  | Exp.var, x => x
  | Exp.const c, _ => c
  | Exp.add a b, x => evalExp a x + evalExp b x
  | Exp.mul a b, x => evalExp a x * evalExp b x
  | Exp.neg a, x => -evalExp a x
  | Exp.pow a n, x => evalExp a x ^ n

/-- The backward pass of reverse-mode autodiff: propagate the upstream
gradient `seed` through each recorded operation (the `Pow` rule is
`seed * n * base ^ (n - 1)`, as in the framework). -/
def backprop : Exp → ℚ → ℚ → ℚ
  | Exp.var, _, seed => seed
  | Exp.const _, _, _ => 0
  | Exp.add a b, x, seed => backprop a x seed + backprop b x seed
  | Exp.mul a b, x, seed =>
    backprop a x (seed * evalExp b x) + backprop b x (seed * evalExp a x)
  | Exp.neg a, x, seed => backprop a x (-seed)
  | Exp.pow a n, x, seed =>
    backprop a x (seed * (n : ℚ) * evalExp a x ^ (n - 1))

/-- The call `g.gradient(y, x)` for a watched scalar: run the backward pass with
seed `1`. -/
def gradientTape (e : Exp) (x : ℚ) : ℚ := backprop e x 1

/-- The expression recorded by the cell `y = x ** 2`. -/
def squareExp : Exp := Exp.pow Exp.var 2

/-- The tensor `dy_dx = g.gradient(y, x)` for the `(2, 2)` watched tensor `x`,
computed elementwise by the tape. -/
def dy_dx (x : Fin 2 → Fin 2 → ℚ) : Fin 2 → Fin 2 → ℚ :=
  fun i j => gradientTape squareExp (x i j)

/-- The tensor `true_grad = 2 * x`, the analytic derivative of `x ** 2`. -/
def true_grad (x : Fin 2 → Fin 2 → ℚ) : Fin 2 → Fin 2 → ℚ :=
  fun i j => 2 * x i j

/-- The value `np.abs(a - b).max()` over the four entries of a `(2, 2)` tensor. -/
def maxAbsDiff (a b : Fin 2 → Fin 2 → ℚ) : ℚ :=
  max (max |a 0 0 - b 0 0| |a 0 1 - b 0 1|)
    (max |a 1 0 - b 1 0| |a 1 1 - b 1 1|)

/-! ### Dataset batching -/

/-- Structural worker for `.batch`: `fuel` bounds the recursion depth (the
dataset length suffices, since each step consumes at least one element
when the batch size is positive). -/
def batchAux {α : Type} (n : ℕ) : ℕ → List α → List (List α)
  | _, [] => []
  | 0, l => [l]
  | fuel + 1, x :: xs =>
    if n = 0 then [x :: xs]
    else (x :: xs).take n :: batchAux n fuel ((x :: xs).drop n)

/-- The call `.batch(n)` on a (finite prefix of a) dataset: split into consecutive
chunks of `n` elements, the last chunk possibly shorter. -/
def batchDataset {α : Type} (n : ℕ) (l : List α) : List (List α) :=
  batchAux n l.length l

/-- Applying `normalize` to a batched tensor of shape `(B, h, w, c)`:
`tf.cast` and `/= 255` act elementwise, i.e. on each image of the batch. -/
def normalizeBatch {h w c : ℕ} (b : List (Image h w c × ℕ)) :
    List (Image h w c × ℕ) := b.map normalize

/-! ### Notebook call traces -/

/-- The kinds of statements appearing in the notebooks' code cells. -/
inductive CallKind : Type
  | importLib | configOp | printText | plotFigure | tensorOp | defineFun
  | pipInstall | datasetLoad | pipelineOp | hubLoad | setTrainable
  | modelConstruct | modelCompile | modelEvaluate | modelFit | modelPredict
  | gradientTapeOp | deviceQuery
  | fileRead | fileWrite | tryCatch | retryLoop
  deriving DecidableEq

/-- Externally observable effects of a statement. -/
inductive Effect : Type
  | pureCompute | textOut | figureOut | fsRead | fsWrite | netFetch
  deriving DecidableEq

/-- One notebook statement: its kind, the effects performed directly by
the code written in the notebook, and the effects performed inside the
framework or external-tool calls it delegates to. -/
structure Stmt where
  kind : CallKind
  direct : List Effect
  delegated : List Effect

/-- The statements of the intro / transfer-learning notebook, in cell
order.  Unfilled `## Solution` exercise cells contribute only the
statements they actually contain. -/
def introNotebookTrace : List Stmt :=
  [ ⟨CallKind.importLib, [], []⟩,                                 -- import warnings, numpy, tensorflow
    ⟨CallKind.configOp, [], []⟩,                                  -- logging config
    ⟨CallKind.printText, [Effect.textOut], []⟩,                   -- version prints
    ⟨CallKind.tensorOp, [Effect.pureCompute], [Effect.pureCompute]⟩, -- seed; features/weights/bias = tf.random.normal
    ⟨CallKind.defineFun, [], []⟩,                                 -- def sigmoid_activation
    ⟨CallKind.printText, [Effect.textOut], []⟩,                   -- solution cell: print label
    ⟨CallKind.printText, [Effect.textOut], []⟩,                   -- print shapes
    ⟨CallKind.printText, [Effect.textOut], []⟩,                   -- matmul solution cell: print label
    ⟨CallKind.printText, [Effect.textOut], []⟩,                   -- print weights shape after transpose_b
    ⟨CallKind.tensorOp, [Effect.pureCompute], [Effect.pureCompute]⟩, -- multilayer: W1, W2, B1, B2
    ⟨CallKind.printText, [Effect.textOut], []⟩,                   -- multilayer solution: print output
    ⟨CallKind.tensorOp, [Effect.pureCompute], [Effect.pureCompute]⟩, -- numpy: a = np.random.rand(4,3)
    ⟨CallKind.printText, [Effect.textOut], []⟩,                   -- print a
    ⟨CallKind.tensorOp, [Effect.pureCompute], [Effect.pureCompute]⟩, -- b = tf.convert_to_tensor(a); c = b.numpy()
    ⟨CallKind.printText, [Effect.textOut], []⟩,                   -- prints of b, c
    ⟨CallKind.pipInstall, [], [Effect.netFetch, Effect.fsWrite, Effect.textOut]⟩, -- !pip install cells
    ⟨CallKind.importLib, [], []⟩,                                 -- import hub, tfds, time, matplotlib
    ⟨CallKind.configOp, [], []⟩,                                  -- logging config
    ⟨CallKind.printText, [Effect.textOut], []⟩,                   -- version prints
    ⟨CallKind.datasetLoad, [], [Effect.netFetch, Effect.fsWrite, Effect.fsRead]⟩, -- tfds.load cats_vs_dogs
    ⟨CallKind.printText, [Effect.textOut], []⟩,                   -- dataset stats prints
    ⟨CallKind.plotFigure, [Effect.figureOut, Effect.textOut], []⟩, -- plt.imshow of one example + prints
    ⟨CallKind.defineFun, [], []⟩,                                 -- def format_image
    ⟨CallKind.pipelineOp, [], [Effect.pureCompute]⟩,              -- shuffle/map/batch/prefetch pipelines
    ⟨CallKind.hubLoad, [], [Effect.netFetch, Effect.fsWrite, Effect.fsRead]⟩, -- hub.KerasLayer(URL)
    ⟨CallKind.setTrainable, [Effect.pureCompute], []⟩,            -- feature_extractor.trainable = False
    ⟨CallKind.modelConstruct, [], [Effect.pureCompute]⟩,          -- model = tf.keras.Sequential
    ⟨CallKind.printText, [Effect.textOut], [Effect.textOut]⟩,     -- model.summary()
    ⟨CallKind.deviceQuery, [Effect.textOut], []⟩,                 -- print(tf.test.is_gpu_available())
    ⟨CallKind.modelPredict, [], [Effect.pureCompute]⟩,            -- ps = model.predict(image_batch)
    ⟨CallKind.plotFigure, [Effect.figureOut], []⟩ ]               -- prediction grid plot

/-- The statements of the training notebook (Part 3), in cell order. -/
def trainingNotebookTrace : List Stmt :=
  [ ⟨CallKind.importLib, [], []⟩,                                 -- import warnings, numpy, matplotlib, tf, tfds
    ⟨CallKind.configOp, [], []⟩,                                  -- logging config
    ⟨CallKind.printText, [Effect.textOut], []⟩,                   -- version prints
    ⟨CallKind.datasetLoad, [], [Effect.netFetch, Effect.fsWrite, Effect.fsRead]⟩, -- tfds.load mnist
    ⟨CallKind.defineFun, [], []⟩,                                 -- def normalize
    ⟨CallKind.pipelineOp, [], [Effect.pureCompute]⟩,              -- cache/shuffle/batch/map/prefetch
    ⟨CallKind.modelConstruct, [], [Effect.pureCompute]⟩,          -- model = tf.keras.Sequential
    ⟨CallKind.modelCompile, [], [Effect.pureCompute]⟩,            -- model.compile(...)
    ⟨CallKind.modelEvaluate, [], [Effect.pureCompute, Effect.textOut]⟩, -- baseline model.evaluate before training
    ⟨CallKind.printText, [Effect.textOut], []⟩,                   -- print loss/accuracy before training
    ⟨CallKind.modelFit, [], [Effect.pureCompute, Effect.textOut]⟩, -- model.fit(training_batches, epochs=5)
    ⟨CallKind.modelPredict, [], [Effect.pureCompute]⟩,            -- ps = model.predict(image_batch)
    ⟨CallKind.plotFigure, [Effect.figureOut], []⟩,                -- probability bar plot
    ⟨CallKind.modelEvaluate, [], [Effect.pureCompute, Effect.textOut]⟩, -- model.evaluate after training
    ⟨CallKind.printText, [Effect.textOut], []⟩,                   -- print loss/accuracy after training
    ⟨CallKind.printText, [Effect.textOut], []⟩,                   -- exercise solution cell: prints only
    ⟨CallKind.printText, [Effect.textOut], []⟩,                   -- exercise solution cell: prints only
    ⟨CallKind.gradientTapeOp, [Effect.pureCompute], [Effect.pureCompute]⟩, -- GradientTape demo
    ⟨CallKind.printText, [Effect.textOut], []⟩ ]                  -- gradient prints

/-- The model-lifecycle calls of a trace, in order. -/
def lifecycleCalls (t : List Stmt) : List CallKind :=
  (t.map Stmt.kind).filter fun k =>
    k = CallKind.modelConstruct ∨ k = CallKind.modelCompile ∨
    k = CallKind.modelFit ∨ k = CallKind.modelEvaluate ∨
    k = CallKind.modelPredict

/-- Returns `true` iff no `.evaluate` call occurs strictly before a `.fit` call. -/
def noEvaluateBeforeFit : List CallKind → Bool
  | [] => true
  | CallKind.modelEvaluate :: rest =>
    rest.all (fun k => k ≠ CallKind.modelFit) && noEvaluateBeforeFit rest
  | _ :: rest => noEvaluateBeforeFit rest

/-- Statement-level check that a statement's own code performs no effects
beyond computation, printed text and plotted figures. -/
def directEffectsBenign (s : Stmt) : Bool :=
  s.direct.all fun e =>
    e = Effect.pureCompute ∨ e = Effect.textOut ∨ e = Effect.figureOut

/-! ### Range lemmas for the preprocessing pipeline -/

theorem lerpT_nonneg (inSize outSize outIdx : ℕ) :
    0 ≤ lerpT inSize outSize outIdx :=
  Int.fract_nonneg (halfPixelPos inSize outSize outIdx)

theorem lerpT_le_one (inSize outSize outIdx : ℕ) :
    lerpT inSize outSize outIdx ≤ 1 :=
  le_of_lt (Int.fract_lt_one (halfPixelPos inSize outSize outIdx))

theorem lerp_mem {a b t M : ℚ} (ht0 : 0 ≤ t) (ht1 : t ≤ 1)
    (ha0 : 0 ≤ a) (haM : a ≤ M) (hb0 : 0 ≤ b) (hbM : b ≤ M) :
    0 ≤ lerp a b t ∧ lerp a b t ≤ M := by
  constructor
  · unfold lerp; nlinarith
  · unfold lerp; nlinarith

theorem pixAt_mem {h w c : ℕ} {image : Image h w c}
    (hb : ∀ i j k, 0 ≤ image i j k ∧ image i j k ≤ 255)
    (y x : ℕ) (k : Fin c) :
    0 ≤ pixAt image y x k ∧ pixAt image y x k ≤ 255 := by
  unfold pixAt
  split
  · split
    · exact hb _ _ _
    · norm_num
  · norm_num

theorem tf_image_resize_mem {h w c : ℕ} {image : Image h w c}
    (hb : ∀ i j k, 0 ≤ image i j k ∧ image i j k ≤ 255)
    (H W : ℕ) (i : Fin H) (j : Fin W) (k : Fin c) :
    0 ≤ tf_image_resize image H W i j k ∧
      tf_image_resize image H W i j k ≤ 255 := by
  unfold tf_image_resize
  have h1 := pixAt_mem hb (lerpLow h H i.val) (lerpLow w W j.val) k
  have h2 := pixAt_mem hb (lerpLow h H i.val) (lerpHigh w W j.val) k
  have h3 := pixAt_mem hb (lerpHigh h H i.val) (lerpLow w W j.val) k
  have h4 := pixAt_mem hb (lerpHigh h H i.val) (lerpHigh w W j.val) k
  have htop := lerp_mem (lerpT_nonneg w W j.val) (lerpT_le_one w W j.val)
    h1.1 h1.2 h2.1 h2.2
  have hbot := lerp_mem (lerpT_nonneg w W j.val) (lerpT_le_one w W j.val)
    h3.1 h3.2 h4.1 h4.2
  exact lerp_mem (lerpT_nonneg h H i.val) (lerpT_le_one h H i.val)
    htop.1 htop.2 hbot.1 hbot.2

theorem div255_mem {v : ℚ} (h0 : 0 ≤ v) (h255 : v ≤ 255) :
    0 ≤ v / 255 ∧ v / 255 ≤ 1 := by
  constructor
  · positivity
  · rw [div_le_one (by norm_num : (0 : ℚ) < 255)]; exact h255

/-- C1: on pixel values in `[0, 255]`, `format_image` and `normalize`
cast to float, divide every pixel by `255` (so every output pixel lies in
`[0, 1]`), `format_image` additionally resizes to
`(image_size, image_size, 3) = (224, 224, 3)` (visible in its output
type), and both return the label unchanged. -/
theorem preprocessing_divides_by_255_and_keeps_label
    {h w : ℕ} (img : Image h w 3) (label : ℕ)
    (hb : ∀ i j k, 0 ≤ img i j k ∧ img i j k ≤ 255) :
    (normalize (img, label)).2 = label ∧
    (∀ i j k, (normalize (img, label)).1 i j k
        = tf_cast_float32 img i j k / 255 ∧
      0 ≤ (normalize (img, label)).1 i j k ∧
      (normalize (img, label)).1 i j k ≤ 1) ∧
    (format_image (img, label)).2 = label ∧
    (∀ i j k, (format_image (img, label)).1 i j k
        = tf_image_resize (tf_cast_float32 img) image_size image_size i j k
            / 255 ∧
      0 ≤ (format_image (img, label)).1 i j k ∧
      (format_image (img, label)).1 i j k ≤ 1) := by
  refine ⟨rfl, fun i j k => ?_, rfl, fun i j k => ?_⟩
  · have hr := hb i j k
    have hd := div255_mem hr.1 hr.2
    exact ⟨rfl, hd.1, hd.2⟩
  · have hr := @tf_image_resize_mem h w 3 (tf_cast_float32 img) hb
      image_size image_size i j k
    have hd := div255_mem hr.1 hr.2
    exact ⟨rfl, hd.1, hd.2⟩

/-- Witness for C1 at the concrete image `constImg` and label `5`. -/
theorem preprocessing_divides_by_255_and_keeps_label_witness :
    (∀ i j k, 0 ≤ constImg i j k ∧ constImg i j k ≤ 255) ∧
    (format_image (constImg, 5)).2 = 5 ∧
    (normalize (constImg, 5)).2 = 5 := by
  have hb : ∀ i j k, 0 ≤ constImg i j k ∧ constImg i j k ≤ 255 := by
    intro i j k
    constructor
    · norm_num [constImg]
    · norm_num [constImg]
  have hmain := preprocessing_divides_by_255_and_keeps_label constImg 5 hb
  exact ⟨hb, hmain.2.2.1, hmain.1⟩

/-- C2: every locally defined function is a single composition of
framework primitives: `sigmoid_activation` equals the standard logistic
function `1/(1+exp(-x))` for every real input, `normalize` is cast
followed by division by `255`, and `format_image` is cast, resize, then
division by `255`. -/
theorem local_functions_are_framework_compositions :
    (∀ x : ℝ, sigmoid_activation x = logistic_spec x) ∧
    (∀ (h w c : ℕ) (p : Image h w c × ℕ),
      normalize p = (fun i j k => tf_cast_float32 p.1 i j k / 255, p.2)) ∧
    (∀ (h w c : ℕ) (p : Image h w c × ℕ),
      format_image p =
        (fun i j k =>
          tf_image_resize (tf_cast_float32 p.1) image_size image_size i j k
            / 255, p.2)) :=
  ⟨fun _ => rfl, fun _ _ _ _ => rfl, fun _ _ _ _ => rfl⟩

/-- C8: `sigmoid_activation` lies strictly between `0` and `1` on every
real input, and is strictly monotonically increasing. -/
theorem sigmoid_activation_bounds_and_strict_mono :
    (∀ x : ℝ, 0 < sigmoid_activation x ∧ sigmoid_activation x < 1) ∧
    StrictMono sigmoid_activation := by
  have hpos : ∀ x : ℝ, 0 < 1 + Real.exp (-x) := by
    intro x
    positivity
  constructor
  · intro x
    constructor
    · unfold sigmoid_activation tf_exp
      positivity
    · unfold sigmoid_activation tf_exp
      rw [div_lt_one (hpos x)]
      nlinarith [Real.exp_pos (-x)]
  · intro a b hab
    unfold sigmoid_activation tf_exp
    have hBA : 1 + Real.exp (-b) < 1 + Real.exp (-a) := by
      have := Real.exp_lt_exp.mpr (neg_lt_neg hab)
      linarith
    exact one_div_lt_one_div_of_lt (hpos b) hBA

/-- C4: for every watched `(2, 2)` tensor `x`, the tape-computed gradient
of `y = x ** 2` equals the analytic derivative `2 * x` elementwise, so
the maximum absolute difference between the two is `0`. -/
theorem gradient_tape_square_matches_analytic (x : Fin 2 → Fin 2 → ℚ) :
    (∀ i j, dy_dx x i j = true_grad x i j) ∧
    maxAbsDiff (true_grad x) (dy_dx x) = 0 := by
  have key : ∀ v : ℚ, gradientTape squareExp v = 2 * v := by
    intro v
    simp [gradientTape, squareExp, backprop, evalExp]
  constructor
  · intro i j
    simp [dy_dx, true_grad, key]
  · simp [maxAbsDiff, dy_dx, true_grad, key]

theorem batchAux_map {α β : Type} (f : α → β) (n : ℕ) :
    ∀ (fuel : ℕ) (l : List α),
      batchAux n fuel (l.map f) = (batchAux n fuel l).map (List.map f) := by
  intro fuel
  induction fuel with
  | zero =>
    intro l
    cases l <;> simp [batchAux]
  | succ m ih =>
    intro l
    cases l with
    | nil => simp [batchAux]
    | cons x xs =>
      rw [List.map_cons]
      show (if n = 0 then [f x :: List.map f xs]
          else (f x :: List.map f xs).take n
            :: batchAux n m ((f x :: List.map f xs).drop n))
        = List.map (List.map f)
            (if n = 0 then [x :: xs]
            else (x :: xs).take n :: batchAux n m ((x :: xs).drop n))
      by_cases hn : n = 0
      · rw [if_pos hn, if_pos hn]
        simp
      · rw [if_neg hn, if_neg hn, List.map_cons,
          ← List.map_cons f x xs, ← List.map_take, ← List.map_drop, ih]

/-- C6: mapping the elementwise normalization over the dataset before
batching (the transfer-learning pipeline shape) and applying it to each
batch after batching (the training-notebook pipeline shape) produce the
same batched values. -/
theorem map_before_batch_eq_batch_then_map {h w c : ℕ} (n : ℕ)
    (ds : List (Image h w c × ℕ)) :
    batchDataset n (ds.map normalize)
      = (batchDataset n ds).map normalizeBatch := by
  unfold batchDataset normalizeBatch
  rw [List.length_map]
  exact batchAux_map normalize n ds.length ds

/-- C3: `tf.matmul` on two `(1, 5)` tensors raises a matrix-size
incompatibility error, the same call with `transpose_b = True` succeeds,
and no statement of either notebook catches or retries framework-raised
errors. -/
theorem matmul_shape_mismatch_and_no_error_handling (f w : TfTensor)
    (hf : f.rows = 1 ∧ f.cols = 5) (hw : w.rows = 1 ∧ w.cols = 5) :
    tf_matmul f w false
      = Except.error
          "InvalidArgumentError: Matrix size-incompatible [Op:MatMul]" ∧
    tf_matmul f w true = Except.ok (matmulRaw f w true) ∧
    ((introNotebookTrace ++ trainingNotebookTrace).all
      (fun s => s.kind ≠ CallKind.tryCatch ∧ s.kind ≠ CallKind.retryLoop))
      = true := by
  refine ⟨?_, ?_, by decide⟩
  · simp [tf_matmul, hf.2, hw.1]
  · simp [tf_matmul, hf.2, hw.2]

/-- Witness for C3 at the concrete `(1, 5)` tensors `features₀`,
`weights₀`. -/
theorem matmul_shape_mismatch_and_no_error_handling_witness :
    tf_matmul features₀ weights₀ false
      = Except.error
          "InvalidArgumentError: Matrix size-incompatible [Op:MatMul]" ∧
    tf_matmul features₀ weights₀ true
      = Except.ok (matmulRaw features₀ weights₀ true) ∧
    ((introNotebookTrace ++ trainingNotebookTrace).all
      (fun s => s.kind ≠ CallKind.tryCatch ∧ s.kind ≠ CallKind.retryLoop))
      = true :=
  matmul_shape_mismatch_and_no_error_handling features₀ weights₀
    ⟨rfl, rfl⟩ ⟨rfl, rfl⟩

/-- C5 counterexample: in the training notebook a `.evaluate` call (the
untrained-baseline evaluation) occurs strictly before the `.fit` call, so
the claimed lifecycle order is violated. -/
theorem evaluate_before_fit_counterexample :
    noEvaluateBeforeFit (lifecycleCalls trainingNotebookTrace) = false := by
  decide

/-- C5 (amended): the training notebook's lifecycle calls occur in the
order construction, `.compile`, `.evaluate` (baseline on the untrained
model), `.fit`, `.predict`, `.evaluate`; the transfer-learning notebook
constructs its model and calls `.predict`, with compilation and training
left to an unfilled exercise cell. -/
theorem model_lifecycle_order :
    lifecycleCalls trainingNotebookTrace =
      [CallKind.modelConstruct, CallKind.modelCompile,
       CallKind.modelEvaluate, CallKind.modelFit,
       CallKind.modelPredict, CallKind.modelEvaluate] ∧
    lifecycleCalls introNotebookTrace =
      [CallKind.modelConstruct, CallKind.modelPredict] := by
  decide

/-- C7: no statement of either notebook performs file reads or writes
directly, and every effect performed directly by notebook-written code is
computation, printed text, or a plotted figure (file-system effects occur
only inside delegated framework or external-tool calls). -/
theorem notebooks_have_no_direct_file_io :
    ((introNotebookTrace ++ trainingNotebookTrace).all
      (fun s => s.kind ≠ CallKind.fileRead ∧ s.kind ≠ CallKind.fileWrite))
      = true ∧
    ((introNotebookTrace ++ trainingNotebookTrace).all directEffectsBenign)
      = true := by
  decide

/-- C9: running the cell that computes
`sigmoid_activation(tf.matmul(features, weights, transpose_b=True) + bias)`
leaves `weights` (and `features` and `bias`) unchanged; in particular
`weights` still has shape `(1, 5)` afterwards. -/
theorem matmul_transpose_b_leaves_weights_unchanged (s : NetState)
    (hw : s.weights.rows = 1 ∧ s.weights.cols = 5) :
    (runMatmulTransposeCell s).weights = s.weights ∧
    (runMatmulTransposeCell s).weights.rows = 1 ∧
    (runMatmulTransposeCell s).weights.cols = 5 ∧
    (runMatmulTransposeCell s).features = s.features ∧
    (runMatmulTransposeCell s).bias = s.bias := by
  have hkeep : (runMatmulTransposeCell s).weights = s.weights ∧
      (runMatmulTransposeCell s).features = s.features ∧
      (runMatmulTransposeCell s).bias = s.bias := by
    unfold runMatmulTransposeCell
    cases tf_matmul s.features s.weights true <;> exact ⟨rfl, rfl, rfl⟩
  refine ⟨hkeep.1, ?_, ?_, hkeep.2.1, hkeep.2.2⟩
  · rw [hkeep.1]
    exact hw.1
  · rw [hkeep.1]
    exact hw.2

/-- Witness for C9 at the concrete state `netState₀`. -/
theorem matmul_transpose_b_leaves_weights_unchanged_witness :
    (runMatmulTransposeCell netState₀).weights = netState₀.weights ∧
    (runMatmulTransposeCell netState₀).weights.rows = 1 ∧
    (runMatmulTransposeCell netState₀).weights.cols = 5 ∧
    (runMatmulTransposeCell netState₀).features = netState₀.features ∧
    (runMatmulTransposeCell netState₀).bias = netState₀.bias :=
  matmul_transpose_b_leaves_weights_unchanged netState₀ ⟨rfl, rfl⟩

/-- C10: for `(1, n)` tensors, the elementwise multiply-and-sum network
output and the `transpose_b` matrix-multiplication output agree: the
matmul succeeds and the two sigmoid outputs have the same value. -/
theorem reduce_sum_multiply_eq_matmul_transpose (n : ℕ)
    (f w bias : TfTensor)
    (hf : f.rows = 1 ∧ f.cols = n) (hw : w.rows = 1 ∧ w.cols = n) :
    tf_matmul f w true = Except.ok (matmulRaw f w true) ∧
    (mapTensor sigmoid_activation
        (scalarAddTensor (tf_reduce_sum (tf_multiply f w)) bias)).entry 0 0
      = (mapTensor sigmoid_activation
          (tensorAdd (matmulRaw f w true) bias)).entry 0 0 := by
  constructor
  · simp [tf_matmul, hf.2, hw.2]
  · simp only [mapTensor, scalarAddTensor, tensorAdd, matmulRaw,
      tf_reduce_sum, tf_multiply]
    congr 1
    rw [hf.1, Finset.sum_range_one]
    simp [add_comm]

/-- Witness for C10 at the concrete `(1, 5)` tensors. -/
theorem reduce_sum_multiply_eq_matmul_transpose_witness :
    tf_matmul features₀ weights₀ true
      = Except.ok (matmulRaw features₀ weights₀ true) ∧
    (mapTensor sigmoid_activation
        (scalarAddTensor (tf_reduce_sum (tf_multiply features₀ weights₀))
          bias₀)).entry 0 0
      = (mapTensor sigmoid_activation
          (tensorAdd (matmulRaw features₀ weights₀ true) bias₀)).entry 0 0 :=
  reduce_sum_multiply_eq_matmul_transpose 5 features₀ weights₀ bias₀
    ⟨rfl, rfl⟩ ⟨rfl, rfl⟩

end IntroML
